import Mathlib

/-!
Verification development for the SQL Stored Procedure Analyzer
(`SP_Document_Generator.py`).  The program has two components:

* a Prompt/Response Adapter (`analyze_stored_procedure`) that sends the SQL
  text to a remote completion endpoint, parses the JSON reply and validates
  and normalizes the parsed record, and
* a Report Renderer that projects the validated record into three
  presentations: on-screen widgets, a Word document
  (`create_word_document`), and a Markdown document.

The JSON values manipulated by the program are embedded as the inductive
type `Json`; a parsed top-level reply is an ordered association list
(`Dict`), matching the insertion-ordered dictionaries produced by the
Python JSON parser.  External collaborators (the completion endpoint, the
JSON parser of the standard library, and the word-processing library) are
passed in as explicit parameters, so that every theorem quantifies over
their possible behaviours.
-/

/-- A JSON value, as produced by parsing the model reply.  Numbers are
modelled as integers; no numeric field of the record is ever computed
with, so the representation of numbers is irrelevant to the claims. -/
inductive Json where
  | null : Json
  | bool : Bool → Json
  | num : Int → Json
  | str : String → Json
  | arr : List Json → Json
  | obj : List (String × Json) → Json

/-- A parsed JSON object: an insertion-ordered association list, the
embedding of a Python `dict` as returned by `json.loads`. -/
abbrev Dict := List (String × Json)

/-- Dictionary lookup, `d[k]` / `d.get(k)`: the value of the first
binding of `k`. -/
def dictGet : Dict → String → Option Json
  | [], _ => none
  | (k', v) :: r, k => if k' == k then some v else dictGet r k

/-- Python `d.get(k, default)`. -/
def dictGetD (d : Dict) (k : String) (v : Json) : Json :=
  match dictGet d k with
  | some w => w
  | none => v

/-- Python `k in d`. -/
def dictHasKey (d : Dict) (k : String) : Bool :=
  (dictGet d k).isSome

/-- Python dictionary assignment `d[k] = v`: replaces the value of an
existing binding in place, otherwise appends a new binding (insertion
order). -/
def dictSet : Dict → String → Json → Dict
  | [], k, v => [(k, v)]
  | (k', v') :: r, k, v => if k' == k then (k, v) :: r else (k', v') :: dictSet r k v

/-- Python truthiness of a JSON value (`if not x: ...`). -/
def Json.truthy : Json → Bool
  | .null => false
  | .bool b => b
  | .num n => n != 0
  | .str s => s != ""
  | .arr l => !l.isEmpty
  | .obj l => !l.isEmpty

/-- Whether a JSON value is an object (a Python `dict`). -/
def Json.isObj : Json → Bool
  | .obj _ => true
  | _ => false

/-- Character-list prefix test, used for the Python substring operator. -/
def chPre : List Char → List Char → Bool
  | [], _ => true
  | _ :: _, [] => false
  | a :: as, b :: bs => a == b && chPre as bs

/-- Character-list substring test. -/
def chSub (needle : List Char) : List Char → Bool
  | [] => needle.isEmpty
  | b :: bs => chPre needle (b :: bs) || chSub needle bs

/-- Python `needle in hay` for strings (substring containment). -/
def strContains (hay needle : String) : Bool :=
  chSub needle.data hay.data

/-- Python `==` between a JSON value and a string (only equal strings
compare equal; values of other types are never equal to a string). -/
def jsonEqStr : Json → String → Bool
  | .str t, k => t == k
  | _, _ => false

/-- Python membership `k in v` for a JSON value `v`: key lookup on
objects, substring test on strings, element equality on arrays; a
`TypeError` on the remaining types. -/
def pyContains (j : Json) (k : String) : Except String Bool :=
  match j with
  | .obj o => .ok (o.any (fun p => p.1 == k))
  | .str s => .ok (strContains s k)
  | .arr l => .ok (l.any (fun e => jsonEqStr e k))
  | _ => .error "TypeError: argument of type is not iterable"

mutual

/-- Python `repr` of a JSON value (the form used when a container is
converted to text). -/
def pyRepr : Json → String
  | .null => "None"
  | .bool true => "True"
  | .bool false => "False"
  | .num n => toString n
  | .str s => "\x27" ++ s ++ "\x27"
  | .arr l => "[" ++ pyReprItems l ++ "]"
  | .obj l => "\x7b" ++ pyReprFields l ++ "\x7d"

/-- Comma-separated reprs of array elements. -/
def pyReprItems : List Json → String
  | [] => ""
  | [j] => pyRepr j
  | j :: r => pyRepr j ++ ", " ++ pyReprItems r

/-- Comma-separated reprs of object fields. -/
def pyReprFields : List (String × Json) → String
  | [] => ""
  | [(k, v)] => "\x27" ++ k ++ "\x27: " ++ pyRepr v
  | (k, v) :: r => "\x27" ++ k ++ "\x27: " ++ pyRepr v ++ ", " ++ pyReprFields r

end

/-- Python `str(x)` of a JSON value, as applied by f-string interpolation
and by `str(...)` in the source: a string renders as itself, other values
by their repr. -/
def pyStrOf : Json → String
  | .str s => s
  | j => pyRepr j

/-- Characters stripped by Python `str.strip()` (ASCII whitespace). -/
def isPySpace (c : Char) : Bool :=
  c == ' ' || c == '\t' || c == '\n' || c == '\r' || c == '\x0b' || c == '\x0c'

/-- Python `s.strip()`. -/
def pyStrip (s : String) : String :=
  String.mk (((s.data.dropWhile isPySpace).reverse.dropWhile isPySpace).reverse)

/-- The four top-level keys required of a reply
(`SP_Document_Generator.py` line 321). -/
def requiredKeys : List String :=
  ["procedure_name", "scope", "optimizations", "summary"]

/-- The five keys required of each optimization step (line 325). -/
def optKeys : List String :=
  ["type", "line_number", "existing_logic", "optimized_logic", "explanation"]

/-- The placeholder summary substituted when the reply has no `summary`
key (lines 337-341). -/
def defaultSummary : Json :=
  .obj [("original_performance_issues", .str "N/A"),
        ("optimization_impact", .str "N/A"),
        ("implementation_difficulty", .str "N/A")]

/-- Warning text for missing top-level keys (line 323). -/
def topKeyWarning : String :=
  "Warning: The analysis response might be missing some expected top-level keys (procedure_name, scope, optimizations, summary)."

/-- The keys of `optKeys` that a step is missing (line 328); raises if the
step does not support membership tests. -/
def missingOptKeys : List String → Json → Except String (List String)
  | [], _ => .ok []
  | k :: ks, opt =>
    match pyContains opt k with
    | .error e => .error e
    | .ok b =>
      match missingOptKeys ks opt with
      | .error e => .error e
      | .ok rest => .ok (if b then rest else k :: rest)

/-- Per-step warnings of the post-parse validation (lines 326-329),
starting at step index `i` (0-based; messages are 1-based). -/
def stepWarnings : Nat → List Json → Except String (List String)
  | _, [] => .ok []
  | i, opt :: rest =>
    match missingOptKeys optKeys opt with
    | .error e => .error e
    | .ok missing =>
      match stepWarnings (i+1) rest with
      | .error e => .error e
      | .ok ws =>
        .ok (if missing.isEmpty then ws
             else ("Warning: Optimization step " ++ toString (i+1) ++
                   " might be missing required keys: " ++
                   String.intercalate ", " missing) :: ws)

/-- The post-parse validation of `analyze_stored_procedure`
(lines 318-344): warns about missing top-level keys, warns about missing
per-step keys, substitutes an empty list for a missing `optimizations`
key and a placeholder record for a missing `summary` key, and returns
the (possibly extended) record together with the warnings shown.  An
exception raised while probing a malformed step surfaces as an error
(caught by the caller at lines 351-354). -/
def validateAnalysis (d : Dict) : Except String (Dict × List String) :=
  let w0 := if requiredKeys.all (fun k => dictHasKey d k) then [] else [topKeyWarning]
  match dictGet d "optimizations" with
  | some (Json.arr opts) =>
    match stepWarnings 0 opts with
    | .error e => .error e
    | .ok ws =>
      let d2 := if dictHasKey d "summary" then d else dictSet d "summary" defaultSummary
      .ok (d2, w0 ++ ws)
  | some _ =>
    let d2 := if dictHasKey d "summary" then d else dictSet d "summary" defaultSummary
    .ok (d2, w0)
  | none =>
    let d1 := dictSet d "optimizations" (Json.arr [])
    let d2 := if dictHasKey d1 "summary" then d1 else dictSet d1 "summary" defaultSummary
    .ok (d2, w0)

/-- The four configuration values of the hosting secret store
(`st.secrets`); `none` embeds an absent entry, whose lookup raises
`KeyError`. -/
structure Secrets where
  azureEndpoint : Option String
  apiKey : Option String
  apiVersion : Option String
  deploymentName : Option String

/-- Observable effects of one call to `analyze_stored_procedure`:
whether the secret store was read, how many completion requests were
issued, and the texts surfaced to the user (warnings, errors, and echoed
reply text, in order). -/
structure Trace where
  secretsRead : Bool
  endpointCalls : Nat
  displayed : List String

/-- The instruction sent to the completion endpooint (lines 246-298),
embedding the SQL text verbatim between code fences. -/
def buildPrompt (file_content : String) : String :=
  String.intercalate "\n"
    [ "",
      "        Analyze the following SQL stored procedure and return your analysis ONLY in JSON format:",
      "",
      "        ```sql",
      "        " ++ file_content,
      "        ```",
      "",
      "        **Instructions:**",
      "        1.  Identify the stored procedure name (value for \"procedure_name\").",
      "        2.  Describe the scope/purpose of the stored procedure in 4-5 concise lines (value for \"scope\").",
      "        3.  Identify up to 5 high-priority optimization opportunities. Focus on significant performance impacts like:",
      "            *   Replacing cursors with set-based operations (e.g., CTEs, derived tables).",
      "            *   Consolidating multiple UPDATE/DELETE statements targeting the same rows.",
      "            *   Optimizing or adding necessary indexes, especially for JOINs and WHERE clauses (suggest index creation statements if applicable).",
      "            *   Identifying and rewriting inefficient query patterns (e.g., correlated subqueries, functions in WHERE clauses).",
      "            *   Detecting unused variables or temporary tables.",
      "            *   Simplifying complex logic where possible.",
      "            *   Parameter sniffing issues if identifiable.",
      "        4.  For each optimization opportunity, create a JSON object within the \"optimizations\" array containing:",
      "            *   `type`: A short description (e.g., \"Replace Cursor\", \"Combine Updates\", \"Add Index\").",
      "            *   `line_number`: The approximate starting line number or range (e.g., \"55\" or \"55-60\") where the existing logic is found. Use \"N/A\" if not applicable.",
      "            *   `existing_logic`: The *complete*, relevant block of the original SQL code that needs modification. Include enough context. Ensure this is a single string, escaping newlines if necessary within the JSON string.",
      "            *   `optimized_logic`: The *complete*, suggested replacement SQL code, including any necessary surrounding syntax. Ensure this is a single string, escaping newlines if necessary within the JSON string.",
      "            *   `explanation`: A brief explanation of *why* the change is beneficial (e.g., \"Reduces loops, improves set-based processing\", \"Minimizes I/O by combining DML operations\", \"Speeds up lookups on the temp table\").",
      "        5.  Provide a brief overall summary in the \"summary\" object containing:",
      "            *   `original_performance_issues`: Key performance problems identified (string).",
      "            *   `optimization_impact`: Expected overall impact, e.g., \"Significant performance improvement expected\", \"Moderate reduction in execution time\" (string).",
      "            *   `implementation_difficulty`: Estimated effort, e.g., \"Low\", \"Medium\", \"High\" (string).",
      "",
      "        **Output Format (Strict JSON):**",
      "        Your entire response MUST be a single, valid JSON object adhering precisely to this schema. Do NOT include any text, explanations, apologies, or markdown formatting (like ```json) before or after the JSON object.",
      "",
      "        ```json",
      "        \x7b",
      "          \"procedure_name\": \"string\",",
      "          \"scope\": \"string\",",
      "          \"optimizations\": [",
      "            \x7b",
      "              \"type\": \"string\",",
      "              \"line_number\": \"string\",",
      "              \"existing_logic\": \"string (full SQL code snippet as a single JSON string)\",",
      "              \"optimized_logic\": \"string (full SQL code snippet as a single JSON string)\",",
      "              \"explanation\": \"string\"",
      "            \x7d",
      "          ],",
      "          \"summary\": \x7b",
      "            \"original_performance_issues\": \"string\",",
      "            \"optimization_impact\": \"string\",",
      "            \"implementation_difficulty\": \"string\"",
      "          \x7d",
      "        \x7d",
      "        ```",
      "        " ]

/-- Python truthiness of a string. -/
def pyTruthyStr (s : String) : Bool := s != ""

/-- The Prompt/Response Adapter (`analyze_stored_procedure`,
lines 222-359).  The remote endpoint is a parameter `remote` taking the
deployment name and the prompt and returning either the reply text or an
exception text; the JSON parse of the standard library is a parameter
`jsonParse` returning the top-level object of the reply or the decode
error.  The result pairs the optional validated record with the `Trace`
of observable effects. -/
def analyze_stored_procedure (secrets : Secrets)
    (remote : String → String → Except String String)
    (jsonParse : String → Except String Dict)
    (file_content : String) : Option Dict × Trace :=
  if file_content == "" || pyStrip file_content == "" then
    (none, ⟨false, 0, ["Cannot analyze empty SQL content."]⟩)
  else
    match secrets.azureEndpoint, secrets.apiKey, secrets.apiVersion with
    | some ep, some key, some ver =>
      if !(pyTruthyStr ep && pyTruthyStr key && pyTruthyStr ver) then
        (none, ⟨true, 0, ["Missing required secrets (AZURE_OPENAI_ENDPOINT, AZURE_OPENAI_API_KEY, API_VERSION). Please check your Streamlit secrets configuration."]⟩)
      else
        let deployment := secrets.deploymentName.getD "gpt-4o-mini"
        match remote deployment (buildPrompt file_content) with
        | .error e => (none, ⟨true, 1, ["Error during analysis API call: " ++ e]⟩)
        | .ok reply =>
          match jsonParse reply with
          | .error e =>
            (none, ⟨true, 1, ["Failed to parse the JSON response from the AI model: " ++ e,
                              "The received response was:", reply]⟩)
          | .ok d =>
            match validateAnalysis d with
            | .error e =>
              (none, ⟨true, 1, ["An unexpected error occurred while processing the analysis response: " ++ e, reply]⟩)
            | .ok (d', warns) => (some d', ⟨true, 1, warns⟩)
    | _, _, _ => (none, ⟨true, 0, ["Error during analysis API call: KeyError"]⟩)

/-- An element of the generated Word document: the content-bearing
operations of the word-processing library (headings, paragraphs and the
summary table; font, shading and width settings carry no text
content). -/
inductive DocxElem where
  | heading : String → Nat → DocxElem
  | par : String → DocxElem
  | table : List String → List (List String) → DocxElem

/-- Failure behaviour of the word-processing library during one document
build: whether `add_table` raises, whether setting the column widths
raises (caught by the inner handler at lines 197-200), and whether
saving the document raises. -/
structure DocxLib where
  addTableFails : Bool
  setWidthsFails : Bool
  saveFails : Bool

/-- A library run in which no call raises. -/
def libOk : DocxLib := ⟨false, false, false⟩

/-- Converts the elements of an iterated `optimizations` value to
dictionaries, raising `AttributeError` at the first element that is not
an object (Python: `opt.get` on a non-dict). -/
def dictsOf : List Json → Except String (List Dict)
  | [] => .ok []
  | Json.obj o :: rest =>
    match dictsOf rest with
    | .ok ds => .ok (o :: ds)
    | .error e => .error e
  | _ :: _ => .error "AttributeError: object has no attribute get"

/-- The object elements of a list of JSON values. -/
def objsOf : List Json → List Dict
  | [] => []
  | Json.obj o :: rest => o :: objsOf rest
  | _ :: rest => objsOf rest

/-- Python iteration `for opt in optimizations` followed by `opt.get`:
arrays yield their elements, strings their characters, objects their
keys (both failing `opt.get` unless empty), other types raise
`TypeError`. -/
def stepsAsDicts : Json → Except String (List Dict)
  | Json.arr l => dictsOf l
  | Json.str s => dictsOf (s.data.map (fun c => Json.str (String.mk [c])))
  | Json.obj f => dictsOf (f.map (fun p => Json.str p.1))
  | _ => .error "TypeError: object is not iterable"

/-- The heading/paragraph block of one optimization step in the Word
document (lines 67-107), for 1-based step number `i`. -/
def wordStepElems (i : Nat) (o : Dict) : List DocxElem :=
  let typeStr := pyStrOf (dictGetD o "type" (Json.str "N/A"))
  let existing := dictGetD o "existing_logic" (Json.str "")
  let optimized := dictGetD o "optimized_logic" (Json.str "")
  [DocxElem.heading ("Step " ++ toString i ++ ": " ++ typeStr) 2,
   DocxElem.heading "Existing Logic:" 3] ++
  (if existing.truthy then [DocxElem.par (pyStrOf existing)] else [DocxElem.par "N/A"]) ++
  [DocxElem.heading "Optimized Logic:" 3] ++
  (if optimized.truthy then [DocxElem.par (pyStrOf optimized)] else [DocxElem.par "N/A"]) ++
  [DocxElem.par (pyStrOf (dictGetD o "explanation" (Json.str "N/A"))),
   DocxElem.par (String.mk (List.replicate 50 '_'))]

/-- The step blocks of all optimization steps, numbered from `i`
(`enumerate(optimizations, 1)` starts at 1). -/
def wordStepsElems : Nat → List Dict → List DocxElem
  | _, [] => []
  | i, o :: r => wordStepElems i o ++ wordStepsElems (i+1) r

/-- One row of the Word summary table (lines 116-122): type, line number
(`str(opt.get("line_number", "N/A"))`), original snippet, optimized
snippet, explanation. -/
def wordRowOf (o : Dict) : List String :=
  [pyStrOf (dictGetD o "type" (Json.str "N/A")),
   pyStrOf (dictGetD o "line_number" (Json.str "N/A")),
   pyStrOf (dictGetD o "existing_logic" (Json.str "")),
   pyStrOf (dictGetD o "optimized_logic" (Json.str "")),
   pyStrOf (dictGetD o "explanation" (Json.str ""))]

/-- Header row of the Word summary table (line 135). -/
def wordHeaders : List String :=
  ["Type of Change", "Line Number", "Original Code Snippet",
   "Optimized Code Snippet", "Optimization Explanation"]

/-- The body of `create_word_document` (lines 29-214), before the
enclosing exception handler: produces the document elements and the
warnings surfaced by the inner width-setting handler, or the exception
that escapes to the outer handler. -/
def create_word_document_body (lib : DocxLib) (analysis : Dict) :
    Except String (List DocxElem × List String) :=
  let head :=
    [DocxElem.heading "SQL Stored Procedure Analysis Report" 0,
     DocxElem.heading "Stored Procedure Name:" 1,
     DocxElem.par (pyStrOf (dictGetD analysis "procedure_name" (Json.str "N/A"))),
     DocxElem.heading "Scope:" 1,
     DocxElem.par (pyStrOf (dictGetD analysis "scope" (Json.str "N/A"))),
     DocxElem.heading "Optimization Steps:" 1]
  let optsJ := dictGetD analysis "optimizations" (Json.arr [])
  let stepPartE : Except String (List DocxElem) :=
    if optsJ.truthy = false then
      .ok [DocxElem.par "No optimization suggestions were generated."]
    else
      match stepsAsDicts optsJ with
      | .error e => .error e
      | .ok steps => .ok (wordStepsElems 1 steps)
  match stepPartE with
  | .error e => .error e
  | .ok stepPart =>
    let tableE : Except String (List DocxElem × List String) :=
      if optsJ.truthy then
        match stepsAsDicts optsJ with
        | .error e => .error e
        | .ok steps =>
          let rows := steps.map wordRowOf
          if rows.isEmpty then
            .ok ([DocxElem.par "Summary table could not be generated."], [])
          else if lib.addTableFails then
            .error "table construction failed"
          else if lib.setWidthsFails then
            .ok ([DocxElem.table wordHeaders rows], ["Error setting column widths"])
          else
            .ok ([DocxElem.table wordHeaders rows], [])
      else .ok ([], [])
    match tableE with
    | .error e => .error e
    | .ok (tablePart, warns) =>
      if lib.saveFails then .error "save failed"
      else .ok (head ++ stepPart ++ [DocxElem.heading "Summary:" 1] ++ tablePart, warns)

/-- `create_word_document` (lines 25-219): the body wrapped in the
exception handler that reports the failure and returns `None`; on
success the saved byte stream is the element list. -/
def create_word_document (lib : DocxLib) (analysis : Dict) : Option (List DocxElem) :=
  match create_word_document_body lib analysis with
  | .ok (elems, _) => some elems
  | .error _ => none

/-- An on-screen widget produced by the results section of the page
(lines 564-600). -/
inductive UIElem where
  | success : String → UIElem
  | markdown : String → UIElem
  | write : String → UIElem
  | info : String → UIElem
  | code : String → UIElem
  | caption : String → UIElem
  | expander : String → List UIElem → UIElem

/-- The collapsible widget of one optimization step (lines 586-600), for
1-based step number `i`. -/
def screenStepElem (i : Nat) (o : Dict) : UIElem :=
  UIElem.expander
    ("Step " ++ toString i ++ ": " ++ pyStrOf (dictGetD o "type" (Json.str "N/A")) ++
     " (Line: " ++ pyStrOf (dictGetD o "line_number" (Json.str "N/A")) ++ ")")
    [UIElem.markdown "**Existing Logic:**",
     UIElem.code (pyStrOf (dictGetD o "existing_logic" (Json.str "N/A"))),
     UIElem.markdown "**Optimized Logic:**",
     UIElem.code (pyStrOf (dictGetD o "optimized_logic" (Json.str "N/A"))),
     UIElem.markdown "**Explanation:**",
     UIElem.caption ("> " ++ pyStrOf (dictGetD o "explanation" (Json.str "N/A")))]

/-- The step widgets of all optimization steps, numbered from `i`. -/
def screenStepsElems : Nat → List Dict → List UIElem
  | _, [] => []
  | i, o :: r => screenStepElem i o :: screenStepsElems (i+1) r

/-- The widgets preceding the step list (lines 566-580): success notice,
procedure name, the scope-and-summary expander, and the suggestions
heading; `s` is the summary object of the record. -/
def screenHeadElems (a : Dict) (s : Dict) : List UIElem :=
  [UIElem.success "Analysis Complete!",
   UIElem.markdown ("#### 🏷️ Procedure Name: `" ++
     pyStrOf (dictGetD a "procedure_name" (Json.str "N/A")) ++ "`"),
   UIElem.expander "View Scope & Summary"
     [UIElem.markdown "**Scope:**",
      UIElem.write (pyStrOf (dictGetD a "scope" (Json.str "N/A"))),
      UIElem.markdown "**Analysis Summary:**",
      UIElem.write ("- **Identified Issues:** " ++
        pyStrOf (dictGetD s "original_performance_issues" (Json.str "N/A"))),
      UIElem.write ("- **Expected Impact:** " ++
        pyStrOf (dictGetD s "optimization_impact" (Json.str "N/A"))),
      UIElem.write ("- **Implementation Difficulty:** " ++
        pyStrOf (dictGetD s "implementation_difficulty" (Json.str "N/A")))],
   UIElem.markdown "#### ✨ Optimization Suggestions:"]

/-- The screen presentation of a validated record (lines 564-600):
either the widget list or the exception a malformed record raises
(access to a non-object summary or iteration over a malformed
`optimizations` value). -/
def screenRender (a : Dict) : Except String (List UIElem) :=
  match dictGetD a "summary" (Json.obj []) with
  | Json.obj s =>
    let optsJ := dictGetD a "optimizations" (Json.arr [])
    if optsJ.truthy = false then
      .ok (screenHeadElems a s ++
           [UIElem.info "✅ No specific optimization suggestions were provided in the analysis."])
    else
      match stepsAsDicts optsJ with
      | .ok steps => .ok (screenHeadElems a s ++ screenStepsElems 1 steps)
      | .error e => .error e
  | _ => .error "AttributeError: object has no attribute get"

/-- One row of the Markdown export table (lines 634-640). -/
def mdRowOf (o : Dict) : List String :=
  [pyStrOf (dictGetD o "type" (Json.str "N/A")),
   pyStrOf (dictGetD o "line_number" (Json.str "N/A")),
   "```sql\n" ++ pyStrOf (dictGetD o "existing_logic" (Json.str "")) ++ "\n```",
   "```sql\n" ++ pyStrOf (dictGetD o "optimized_logic" (Json.str "")) ++ "\n```",
   pyStrOf (dictGetD o "explanation" (Json.str ""))]

/-- The Markdown report header through the `## Optimization Steps:`
heading (lines 644-653); `s` is the summary object of the record. -/
def mdHeaderPart (a : Dict) (s : Dict) : String :=
  "# SQL Stored Procedure Analysis Report\n\n" ++
  "## Procedure Name: `" ++ pyStrOf (dictGetD a "procedure_name" (Json.str "N/A")) ++ "`\n\n" ++
  "## Scope:\n" ++ pyStrOf (dictGetD a "scope" (Json.str "N/A")) ++ "\n\n" ++
  "## Analysis Summary:\n" ++
  "- **Identified Issues:** " ++ pyStrOf (dictGetD s "original_performance_issues" (Json.str "N/A")) ++ "\n" ++
  "- **Expected Impact:** " ++ pyStrOf (dictGetD s "optimization_impact" (Json.str "N/A")) ++ "\n" ++
  "- **Implementation Difficulty:** " ++ pyStrOf (dictGetD s "implementation_difficulty" (Json.str "N/A")) ++ "\n\n" ++
  "## Optimization Steps:\n"

/-- The Markdown text of one optimization step (lines 658-664), for
1-based step number `i`. -/
def mdStepText (i : Nat) (o : Dict) : String :=
  "\n### Step " ++ toString i ++ ": " ++ pyStrOf (dictGetD o "type" (Json.str "N/A")) ++
  " (Line: " ++ pyStrOf (dictGetD o "line_number" (Json.str "N/A")) ++ ")\n\n" ++
  "**Existing Logic:**\n```sql\n" ++ pyStrOf (dictGetD o "existing_logic" (Json.str "N/A")) ++ "\n```\n\n" ++
  "**Optimized Logic:**\n```sql\n" ++ pyStrOf (dictGetD o "optimized_logic" (Json.str "N/A")) ++ "\n```\n\n" ++
  "**Explanation:**\n> " ++ pyStrOf (dictGetD o "explanation" (Json.str "N/A")) ++ "\n\n---\n"

/-- The Markdown texts of all optimization steps, numbered from `i`. -/
def mdStepsText : Nat → List Dict → String
  | _, [] => ""
  | i, o :: r => mdStepText i o ++ mdStepsText (i+1) r

/-- The pipe-table rendering of the export table rows, the embedding of
`pandas.DataFrame.to_markdown(index=False)` applied to the rows built at
lines 632-641. -/
def dfToMarkdown (rows : List (List String)) : String :=
  "| Type | Line | Original Code | Optimized Code | Explanation |\n" ++
  "|---|---|---|---|---|\n" ++
  String.intercalate "\n" (rows.map (fun r => "| " ++ String.intercalate " | " r ++ " |"))

/-- The Markdown presentation (lines 630-668): builds the export rows,
then the report text; either the text or the exception a malformed
record raises (caught at line 677, suppressing the Markdown download). -/
def markdownGen (a : Dict) : Except String String :=
  match stepsAsDicts (dictGetD a "optimizations" (Json.arr [])) with
  | .error e => .error e
  | .ok steps =>
    let rows := steps.map mdRowOf
    match dictGetD a "summary" (Json.obj []) with
    | Json.obj s =>
      let optsJ := dictGetD a "optimizations" (Json.arr [])
      let stepsPart :=
        if optsJ.truthy = false then "No specific optimization suggestions were provided.\n"
        else mdStepsText 1 steps
      let tablePart :=
        if rows.isEmpty then "" else "\n## Summary Table:\n\n" ++ dfToMarkdown rows
      .ok (mdHeaderPart a s ++ stepsPart ++ tablePart)
    | _ => .error "AttributeError: object has no attribute get"

/-- The session state consulted when the report file name is determined
(lines 518-536): whether the sample was loaded, whether an uploaded file
was processed, the stored base name of the uploaded file, and the text
of the input area. -/
structure SessionState where
  sampleLoaded : Bool
  processedUpload : Bool
  fileName : Option String
  sqlInput : String

/-- Python truthiness of an optional string (a session entry that may be
absent). -/
def pyTruthyStrOpt : Option String → Bool
  | some s => s != ""
  | none => false

/-- The base file name of the report (lines 523-533): the sample name,
the uploaded file base name, the pasted-content name, or the default. -/
def determineFileName (st : SessionState) : String :=
  if st.sampleLoaded then "sample_procedure"
  else if st.processedUpload && pyTruthyStrOpt st.fileName then st.fileName.getD ""
  else if pyTruthyStr st.sqlInput then "pasted_procedure"
  else "analysis_report"

/-- The outputs of the download section (lines 602-678): the generated
Word byte stream and its download file name when offered, and the
Markdown text and its download file name when offered. -/
structure DownloadOutputs where
  docx : Option (List DocxElem)
  docxButtonName : Option String
  markdownText : Option String
  mdButtonName : Option String

/-- The download section (lines 602-678): generates the Word document
(failures reported, download omitted) and the Markdown report (failures
caught at line 677, download omitted); both downloads are named from the
session base name with the `_analysis` suffix. -/
def downloadSection (lib : DocxLib) (analysis : Dict) (base : String) : DownloadOutputs :=
  let docxBytes := create_word_document lib analysis
  let docxBtn := docxBytes.map (fun _ => base ++ "_analysis.docx")
  match markdownGen analysis with
  | .ok s => ⟨docxBytes, docxBtn, some s, some (base ++ "_analysis.md")⟩
  | .error _ => ⟨docxBytes, docxBtn, none, none⟩

/-- The whole results area for an available record (lines 564-678): the
screen presentation and the download section. -/
def renderResultsPage (lib : DocxLib) (a : Dict) (base : String) :
    Except String (List UIElem) × DownloadOutputs :=
  (screenRender a, downloadSection lib a base)

/-- Whether the `summary` entry of a record, if present, is an object
(so that field access on it does not raise). -/
def summaryObjOk (a : Dict) : Bool :=
  match dictGetD a "summary" (Json.obj []) with
  | Json.obj _ => true
  | _ => false

theorem dictGet_eq_none_of_hasKey_false {d : Dict} {k : String}
    (h : dictHasKey d k = false) : dictGet d k = none := by
  unfold dictHasKey at h
  cases hg : dictGet d k with
  | none => rfl
  | some v => rw [hg] at h; simp [Option.isSome] at h

theorem dictGet_isSome_of_hasKey {d : Dict} {k : String}
    (h : dictHasKey d k = true) : ∃ v, dictGet d k = some v := by
  unfold dictHasKey at h
  cases hg : dictGet d k with
  | none => rw [hg] at h; simp [Option.isSome] at h
  | some v => exact ⟨v, rfl⟩

theorem dictGetD_of_hasKey_false {d : Dict} {k : String} (v : Json)
    (h : dictHasKey d k = false) : dictGetD d k v = v := by
  unfold dictGetD
  rw [dictGet_eq_none_of_hasKey_false h]

theorem dictGet_set_self (d : Dict) (k : String) (v : Json) :
    dictGet (dictSet d k v) k = some v := by
  induction d with
  | nil => simp [dictSet, dictGet]
  | cons p r ih =>
    obtain ⟨k', v'⟩ := p
    by_cases h : (k' == k) = true
    · simp [dictSet, h, dictGet]
    · simp only [Bool.not_eq_true] at h
      simp [dictSet, h, dictGet, ih]

theorem dictGet_set_ne (d : Dict) (k k' : String) (v : Json)
    (h : (k == k') = false) : dictGet (dictSet d k v) k' = dictGet d k' := by
  induction d with
  | nil => simp [dictSet, dictGet, h]
  | cons p r ih =>
    obtain ⟨k0, v0⟩ := p
    by_cases h0 : (k0 == k) = true
    · have hk0 : k0 = k := by simpa using h0
      subst hk0
      simp [dictSet, dictGet, h]
    · simp only [Bool.not_eq_true] at h0
      simp [dictSet, h0, dictGet, ih]

theorem dictHasKey_set_ne (d : Dict) (k k' : String) (v : Json)
    (h : (k == k') = false) : dictHasKey (dictSet d k v) k' = dictHasKey d k' := by
  unfold dictHasKey
  rw [dictGet_set_ne d k k' v h]

theorem pyStrip_eq_empty_of_all_space {s : String}
    (h : ∀ c ∈ s.data, isPySpace c = true) : pyStrip s = "" := by
  unfold pyStrip
  have h1 : s.data.dropWhile isPySpace = [] := by
    rw [List.dropWhile_eq_nil_iff]
    intro c hc
    exact h c hc
  rw [h1]
  rfl

theorem dictsOf_allObj {l : List Json} (h : l.all Json.isObj = true) :
    dictsOf l = .ok (objsOf l) := by
  induction l with
  | nil => rfl
  | cons j r ih =>
    simp only [List.all_cons, Bool.and_eq_true] at h
    obtain ⟨hj, hr⟩ := h
    cases j with
    | obj o => simp [dictsOf, objsOf, ih hr]
    | null => simp [Json.isObj] at hj
    | bool b => simp [Json.isObj] at hj
    | num n => simp [Json.isObj] at hj
    | str t => simp [Json.isObj] at hj
    | arr a => simp [Json.isObj] at hj

theorem objsOf_get {l : List Json} {k : Nat} {o : Dict}
    (hall : l.all Json.isObj = true) (hk : l.get? k = some (Json.obj o)) :
    (objsOf l).get? k = some o := by
  induction l generalizing k with
  | nil => simp [List.get?] at hk
  | cons j r ih =>
    simp only [List.all_cons, Bool.and_eq_true] at hall
    obtain ⟨hj, hr⟩ := hall
    cases j with
    | obj o' =>
      cases k with
      | zero =>
        simp only [List.get?] at hk
        injection hk with hk
        injection hk with hk
        subst hk
        rfl
      | succ k => exact ih hr hk
    | null => simp [Json.isObj] at hj
    | bool b => simp [Json.isObj] at hj
    | num n => simp [Json.isObj] at hj
    | str t => simp [Json.isObj] at hj
    | arr a => simp [Json.isObj] at hj

theorem screenSteps_mem {steps : List Dict} {k : Nat} {o : Dict}
    (hk : steps.get? k = some o) (i : Nat) :
    screenStepElem (i + k) o ∈ screenStepsElems i steps := by
  induction steps generalizing i k with
  | nil => simp [List.get?] at hk
  | cons s r ih =>
    cases k with
    | zero =>
      simp only [List.get?] at hk
      injection hk with hk
      subst hk
      simp [screenStepsElems]
    | succ k =>
      have := ih hk (i + 1)
      have harith : i + 1 + k = i + (k + 1) := by omega
      rw [harith] at this
      simp [screenStepsElems, this]

theorem mdSteps_split {steps : List Dict} {k : Nat} {o : Dict}
    (hk : steps.get? k = some o) (i : Nat) :
    ∃ x y, mdStepsText i steps = x ++ mdStepText (i + k) o ++ y := by
  induction steps generalizing i k with
  | nil => simp [List.get?] at hk
  | cons s r ih =>
    cases k with
    | zero =>
      simp only [List.get?] at hk
      injection hk with hk
      subst hk
      exact ⟨"", mdStepsText (i + 1) r, by simp [mdStepsText]⟩
    | succ k =>
      obtain ⟨x, y, hxy⟩ := ih hk (i + 1)
      refine ⟨mdStepText i s ++ x, y, ?_⟩
      have harith : i + 1 + k = i + (k + 1) := by omega
      rw [harith] at hxy
      simp [mdStepsText, hxy, String.append_assoc]


/-- C1: for every parsed JSON reply that contains all four top-level keys
(`procedure_name`, `scope`, `optimizations`, `summary`), the record
returned by the post-parse validation of `analyze_stored_procedure` is
equal to the parsed reply: validation adds no keys and changes no
values. -/
theorem validate_identity_on_complete_reply (d : Dict)
    (h : requiredKeys.all (fun k => dictHasKey d k) = true) :
    ∀ d' w, validateAnalysis d = Except.ok (d', w) → d' = d := by
  intro d' w hok
  have hall := h
  simp only [requiredKeys, List.all_cons, List.all_nil, Bool.and_eq_true,
    and_true] at h
  obtain ⟨hpn, hsc, hopt, hsum⟩ := h
  unfold validateAnalysis at hok
  rw [if_pos hall] at hok
  split at hok
  · split at hok
    · simp at hok
    · simp only [hsum, if_true] at hok
      simp at hok
      exact hok.1.symm
  · simp only [hsum, if_true] at hok
    simp at hok
    exact hok.1.symm
  · rename_i heq
    obtain ⟨v, hv⟩ := dictGet_isSome_of_hasKey hopt
    rw [heq] at hv
    exact absurd hv (by simp)

/-- C2: for every parsed JSON reply in which the top-level key
`optimizations` is absent, the validation succeeds and the returned
record binds `optimizations` to the empty array (never absent or
null). -/
theorem validate_defaults_missing_optimizations (d : Dict)
    (h : dictHasKey d "optimizations" = false) :
    ∃ d' w, validateAnalysis d = Except.ok (d', w) ∧
      dictGet d' "optimizations" = some (Json.arr []) := by
  have hg := dictGet_eq_none_of_hasKey_false h
  refine ⟨(if dictHasKey (dictSet d "optimizations" (Json.arr [])) "summary" = true then
             dictSet d "optimizations" (Json.arr [])
           else dictSet (dictSet d "optimizations" (Json.arr [])) "summary" defaultSummary),
          (if (requiredKeys.all fun k => dictHasKey d k) = true then [] else [topKeyWarning]),
          ?_, ?_⟩
  · unfold validateAnalysis
    rw [hg]
  · by_cases hs : dictHasKey (dictSet d "optimizations" (Json.arr [])) "summary" = true
    · rw [if_pos hs]
      exact dictGet_set_self d "optimizations" (Json.arr [])
    · rw [if_neg hs]
      rw [dictGet_set_ne _ "summary" "optimizations" _ (by decide)]
      exact dictGet_set_self d "optimizations" (Json.arr [])

/-- C3: for every parsed JSON reply in which the top-level key `summary`
is absent, any record returned by the validation binds `summary` to a
record in which all three sub-fields are present as the placeholder
string `N/A`. -/
theorem validate_defaults_missing_summary (d : Dict)
    (h : dictHasKey d "summary" = false) :
    ∀ d' w, validateAnalysis d = Except.ok (d', w) →
      dictGet d' "summary" =
        some (Json.obj [("original_performance_issues", Json.str "N/A"),
                        ("optimization_impact", Json.str "N/A"),
                        ("implementation_difficulty", Json.str "N/A")]) := by
  intro d' w hok
  have hne : ("optimizations" == "summary") = false := by decide
  simp only [validateAnalysis] at hok
  split at hok
  · split at hok
    · simp at hok
    · simp only [h, Bool.false_eq_true, if_false] at hok
      simp at hok
      rw [← hok.1]
      exact dictGet_set_self d "summary" defaultSummary
  · simp only [h, Bool.false_eq_true, if_false] at hok
    simp at hok
    rw [← hok.1]
    exact dictGet_set_self d "summary" defaultSummary
  · have hs1 : dictHasKey (dictSet d "optimizations" (Json.arr [])) "summary" = false := by
      rw [dictHasKey_set_ne d "optimizations" "summary" _ hne]
      exact h
    simp only [hs1, Bool.false_eq_true, if_false] at hok
    simp at hok
    rw [← hok.1]
    exact dictGet_set_self _ "summary" defaultSummary

/-- A complete reply used to exercise
`validate_identity_on_complete_reply`. -/
def c1Reply : Dict :=
  [("procedure_name", Json.str "usp_Demo"),
   ("scope", Json.str "Returns demo rows."),
   ("optimizations", Json.arr []),
   ("summary", defaultSummary)]

/-- Witness for C1 at a concrete complete reply. -/
theorem c1_witness :
    requiredKeys.all (fun k => dictHasKey c1Reply k) = true ∧
    validateAnalysis c1Reply = Except.ok (c1Reply, []) ∧
    (∀ d' w, validateAnalysis c1Reply = Except.ok (d', w) → d' = c1Reply) :=
  ⟨by decide, by rfl, validate_identity_on_complete_reply c1Reply (by decide)⟩

/-- A reply without `optimizations` used to exercise
`validate_defaults_missing_optimizations`. -/
def c2Reply : Dict :=
  [("procedure_name", Json.str "usp_Demo"),
   ("scope", Json.str "Returns demo rows."),
   ("summary", defaultSummary)]

/-- Witness for C2 at a concrete reply lacking `optimizations`. -/
theorem c2_witness :
    dictHasKey c2Reply "optimizations" = false ∧
    ∃ d' w, validateAnalysis c2Reply = Except.ok (d', w) ∧
      dictGet d' "optimizations" = some (Json.arr []) :=
  ⟨by decide, validate_defaults_missing_optimizations c2Reply (by decide)⟩

/-- A reply without `summary` used to exercise
`validate_defaults_missing_summary`. -/
def c3Reply : Dict :=
  [("procedure_name", Json.str "usp_Demo"),
   ("scope", Json.str "Returns demo rows."),
   ("optimizations", Json.arr [])]

/-- Witness for C3 at a concrete reply lacking `summary`. -/
theorem c3_witness :
    dictHasKey c3Reply "summary" = false ∧
    dictGet (c3Reply ++ [("summary", defaultSummary)]) "summary" =
      some (Json.obj [("original_performance_issues", Json.str "N/A"),
                      ("optimization_impact", Json.str "N/A"),
                      ("implementation_difficulty", Json.str "N/A")]) :=
  ⟨by decide,
   validate_defaults_missing_summary c3Reply (by decide)
     (c3Reply ++ [("summary", defaultSummary)]) [topKeyWarning] (by rfl)⟩

/-- C4: for every input text that is empty or contains only whitespace,
`analyze_stored_procedure` returns the failure signal without reading
any credential and without invoking the remote completion endpoint. -/
theorem analyze_rejects_blank_input (c : String)
    (h : ∀ ch ∈ c.data, isPySpace ch = true)
    (secrets : Secrets) (remote : String → String → Except String String)
    (jsonParse : String → Except String Dict) :
    (analyze_stored_procedure secrets remote jsonParse c).1 = none ∧
    (analyze_stored_procedure secrets remote jsonParse c).2.secretsRead = false ∧
    (analyze_stored_procedure secrets remote jsonParse c).2.endpointCalls = 0 := by
  have hs : pyStrip c = "" := pyStrip_eq_empty_of_all_space h
  have hcond : (c == "" || pyStrip c == "") = true := by
    rw [hs]
    simp
  unfold analyze_stored_procedure
  rw [if_pos hcond]
  exact ⟨rfl, rfl, rfl⟩

/-- Witness for C4 at a concrete whitespace-only input. -/
theorem c4_witness :
    (∀ ch ∈ ("  \n\t " : String).data, isPySpace ch = true) ∧
    (analyze_stored_procedure ⟨some "e", some "k", some "v", none⟩
      (fun _ _ => Except.ok "reply") (fun _ => Except.error "nope") "  \n\t ").1 = none ∧
    (analyze_stored_procedure ⟨some "e", some "k", some "v", none⟩
      (fun _ _ => Except.ok "reply") (fun _ => Except.error "nope") "  \n\t ").2.secretsRead = false ∧
    (analyze_stored_procedure ⟨some "e", some "k", some "v", none⟩
      (fun _ _ => Except.ok "reply") (fun _ => Except.error "nope") "  \n\t ").2.endpointCalls = 0 :=
  ⟨by decide,
   analyze_rejects_blank_input "  \n\t " (by decide) ⟨some "e", some "k", some "v", none⟩
     (fun _ _ => Except.ok "reply") (fun _ => Except.error "nope")⟩

/-- C5: for every remote reply whose content is not valid JSON, the
Adapter reports a parse error displaying the raw offending reply text
and returns the failure signal, with exactly one completion call (no
retry). -/
theorem analyze_reports_parse_error (ep key ver : String) (dep : Option String)
    (c reply perr : String)
    (remote : String → String → Except String String)
    (jsonParse : String → Except String Dict)
    (hc : pyStrip c ≠ "")
    (hep : ep ≠ "") (hkey : key ≠ "") (hver : ver ≠ "")
    (hr : remote (dep.getD "gpt-4o-mini") (buildPrompt c) = Except.ok reply)
    (hp : jsonParse reply = Except.error perr) :
    analyze_stored_procedure ⟨some ep, some key, some ver, dep⟩ remote jsonParse c =
      (none, ⟨true, 1,
        ["Failed to parse the JSON response from the AI model: " ++ perr,
         "The received response was:", reply]⟩) := by
  have hc0 : c ≠ "" := by
    intro hc'
    apply hc
    rw [hc']
    rfl
  have hcond : (c == "" || pyStrip c == "") = false := by
    simp [hc0, hc]
  have htru : (!(pyTruthyStr ep && pyTruthyStr key && pyTruthyStr ver)) = false := by
    simp [pyTruthyStr, hep, hkey, hver]
  unfold analyze_stored_procedure
  rw [hcond]
  simp only [Bool.false_eq_true, if_false]
  rw [htru]
  simp only [Bool.false_eq_true, if_false]
  rw [hr]
  dsimp only
  rw [hp]

/-- Witness for C5 at the literal non-JSON reply of the specification
scenario. -/
theorem c5_witness :
    pyStrip "SELECT 1;" ≠ "" ∧
    analyze_stored_procedure ⟨some "https://endpoint", some "secret-key", some "2024-02-01", none⟩
      (fun _ _ => Except.ok "Sorry, I cannot help with that.")
      (fun _ => Except.error "Expecting value: line 1 column 1 (char 0)")
      "SELECT 1;" =
      (none, ⟨true, 1,
        ["Failed to parse the JSON response from the AI model: Expecting value: line 1 column 1 (char 0)",
         "The received response was:", "Sorry, I cannot help with that."]⟩) :=
  ⟨by decide,
   analyze_reports_parse_error "https://endpoint" "secret-key" "2024-02-01" none
     "SELECT 1;" "Sorry, I cannot help with that." "Expecting value: line 1 column 1 (char 0)"
     (fun _ _ => Except.ok "Sorry, I cannot help with that.")
     (fun _ => Except.error "Expecting value: line 1 column 1 (char 0)")
     (by decide) (by decide) (by decide) (by decide) rfl rfl⟩

/-- C6: for every AnalysisRecord whose `optimizations` sequence is empty
(and whose summary, if present, is an object), all three presentations
carry an explicit no-suggestions notice, the Word document contains no
summary table, and the Markdown report ends at the notice with no
summary-table section. -/
theorem empty_optimizations_render (a : Dict)
    (hopt : dictGet a "optimizations" = some (Json.arr []))
    (hsum : summaryObjOk a = true) :
    (∃ elems, create_word_document libOk a = some elems ∧
       DocxElem.par "No optimization suggestions were generated." ∈ elems ∧
       ∀ hd rows, DocxElem.table hd rows ∉ elems) ∧
    (∃ es, screenRender a = Except.ok es ∧
       UIElem.info "✅ No specific optimization suggestions were provided in the analysis." ∈ es) ∧
    (∃ s, markdownGen a = Except.ok
       (mdHeaderPart a s ++ "No specific optimization suggestions were provided.\n")) := by
  have hgd : dictGetD a "optimizations" (Json.arr []) = Json.arr [] := by
    unfold dictGetD
    rw [hopt]
  refine ⟨?_, ?_, ?_⟩
  · refine ⟨[DocxElem.heading "SQL Stored Procedure Analysis Report" 0,
             DocxElem.heading "Stored Procedure Name:" 1,
             DocxElem.par (pyStrOf (dictGetD a "procedure_name" (Json.str "N/A"))),
             DocxElem.heading "Scope:" 1,
             DocxElem.par (pyStrOf (dictGetD a "scope" (Json.str "N/A"))),
             DocxElem.heading "Optimization Steps:" 1,
             DocxElem.par "No optimization suggestions were generated.",
             DocxElem.heading "Summary:" 1], ?_, ?_, ?_⟩
    · unfold create_word_document create_word_document_body
      rw [hgd]
      rfl
    · simp
    · intro hd rows
      simp
  · cases hsv : dictGetD a "summary" (Json.obj []) with
    | obj s =>
      refine ⟨screenHeadElems a s ++
        [UIElem.info "✅ No specific optimization suggestions were provided in the analysis."], ?_, ?_⟩
      · unfold screenRender
        rw [hsv, hgd]
        rfl
      · simp
    | null => unfold summaryObjOk at hsum; rw [hsv] at hsum; simp at hsum
    | bool b => unfold summaryObjOk at hsum; rw [hsv] at hsum; simp at hsum
    | num n => unfold summaryObjOk at hsum; rw [hsv] at hsum; simp at hsum
    | str t => unfold summaryObjOk at hsum; rw [hsv] at hsum; simp at hsum
    | arr l => unfold summaryObjOk at hsum; rw [hsv] at hsum; simp at hsum
  · cases hsv : dictGetD a "summary" (Json.obj []) with
    | obj s =>
      refine ⟨s, ?_⟩
      have hmd : markdownGen a = Except.ok
          (mdHeaderPart a s ++ "No specific optimization suggestions were provided.\n" ++ "") := by
        unfold markdownGen
        rw [hgd, hsv]
        rfl
      rw [hmd, String.append_empty]
    | null => unfold summaryObjOk at hsum; rw [hsv] at hsum; simp at hsum
    | bool b => unfold summaryObjOk at hsum; rw [hsv] at hsum; simp at hsum
    | num n => unfold summaryObjOk at hsum; rw [hsv] at hsum; simp at hsum
    | str t => unfold summaryObjOk at hsum; rw [hsv] at hsum; simp at hsum
    | arr l => unfold summaryObjOk at hsum; rw [hsv] at hsum; simp at hsum

/-- A record with zero optimization steps used to exercise
`empty_optimizations_render`. -/
def c6Record : Dict :=
  [("procedure_name", Json.str "usp_X"),
   ("scope", Json.str "Maintains demo data."),
   ("optimizations", Json.arr []),
   ("summary", Json.obj [("original_performance_issues", Json.str "none"),
                         ("optimization_impact", Json.str "none"),
                         ("implementation_difficulty", Json.str "Low")])]

/-- Witness for C6 at a concrete record with no optimization steps. -/
theorem c6_witness :
    dictGet c6Record "optimizations" = some (Json.arr []) ∧
    summaryObjOk c6Record = true ∧
    ((∃ elems, create_word_document libOk c6Record = some elems ∧
       DocxElem.par "No optimization suggestions were generated." ∈ elems ∧
       ∀ hd rows, DocxElem.table hd rows ∉ elems) ∧
     (∃ es, screenRender c6Record = Except.ok es ∧
       UIElem.info "✅ No specific optimization suggestions were provided in the analysis." ∈ es) ∧
     (∃ s, markdownGen c6Record = Except.ok
       (mdHeaderPart c6Record s ++ "No specific optimization suggestions were provided.\n"))) :=
  ⟨by rfl, by rfl, empty_optimizations_render c6Record (by rfl) (by rfl)⟩

/-- C7: for every AnalysisRecord containing an optimization step without
a `line_number` key, the three presentations display that step's line
number as the string `N/A`: the Word summary-table row holds `N/A` in
its line-number column and the table appears in the generated document,
the screen expander title for the step reads `(Line: N/A)` and the
expander appears in the rendered widgets, and the Markdown step heading
shows `N/A` in its line slot and the step text appears in the report. -/
theorem missing_line_number_renders_na
    (a : Dict) (l : List Json) (k : Nat) (o : Dict)
    (hopt : dictGet a "optimizations" = some (Json.arr l))
    (hk : l.get? k = some (Json.obj o))
    (hall : l.all Json.isObj = true)
    (hline : dictHasKey o "line_number" = false)
    (hsum : summaryObjOk a = true) :
    ((wordRowOf o).get? 1 = some "N/A" ∧
     ∃ elems, create_word_document libOk a = some elems ∧
       DocxElem.table wordHeaders ((objsOf l).map wordRowOf) ∈ elems ∧
       ((objsOf l).map wordRowOf).get? k = some (wordRowOf o)) ∧
    ((∃ c, screenStepElem (k+1) o = UIElem.expander
        ("Step " ++ toString (k+1) ++ ": " ++ pyStrOf (dictGetD o "type" (Json.str "N/A")) ++
         " (Line: " ++ "N/A" ++ ")") c) ∧
     ∃ es, screenRender a = Except.ok es ∧ screenStepElem (k+1) o ∈ es) ∧
    ((∃ u v, mdStepText (k+1) o = u ++ "N/A" ++ v ∧
        u = "\n### Step " ++ toString (k+1) ++ ": " ++
            pyStrOf (dictGetD o "type" (Json.str "N/A")) ++ " (Line: ") ∧
     ∃ s x y, markdownGen a = Except.ok s ∧ s = x ++ mdStepText (k+1) o ++ y) := by
  have hl : dictGetD o "line_number" (Json.str "N/A") = Json.str "N/A" :=
    dictGetD_of_hasKey_false _ hline
  have hgd : dictGetD a "optimizations" (Json.arr []) = Json.arr l := by
    unfold dictGetD
    rw [hopt]
  have htru : (Json.arr l).truthy = true := by
    cases l with
    | nil => simp [List.get?] at hk
    | cons j r => rfl
  have hsteps : stepsAsDicts (Json.arr l) = Except.ok (objsOf l) := dictsOf_allObj hall
  have hks : (objsOf l).get? k = some o := objsOf_get hall hk
  have hone : objsOf l ≠ [] := by
    intro h0
    rw [h0] at hks
    simp [List.get?] at hks
  have hrows : ((objsOf l).map wordRowOf).isEmpty = false := by
    cases ho : objsOf l with
    | nil => exact absurd ho hone
    | cons x r => rfl
  have hrowsMd : ((objsOf l).map mdRowOf).isEmpty = false := by
    cases ho : objsOf l with
    | nil => exact absurd ho hone
    | cons x r => rfl
  refine ⟨⟨?_, ?_⟩, ⟨?_, ?_⟩, ?_, ?_⟩
  · unfold wordRowOf
    rw [hl]
    rfl
  · refine ⟨[DocxElem.heading "SQL Stored Procedure Analysis Report" 0,
             DocxElem.heading "Stored Procedure Name:" 1,
             DocxElem.par (pyStrOf (dictGetD a "procedure_name" (Json.str "N/A"))),
             DocxElem.heading "Scope:" 1,
             DocxElem.par (pyStrOf (dictGetD a "scope" (Json.str "N/A"))),
             DocxElem.heading "Optimization Steps:" 1] ++
            wordStepsElems 1 (objsOf l) ++ [DocxElem.heading "Summary:" 1] ++
            [DocxElem.table wordHeaders ((objsOf l).map wordRowOf)], ?_, ?_, ?_⟩
    · unfold create_word_document create_word_document_body
      rw [hgd]
      simp only [htru, Bool.true_eq_false, if_false, if_true, hsteps, hrows, libOk]
      rfl
    · simp
    · rw [List.get?_map, hks]
      rfl
  · refine ⟨[UIElem.markdown "**Existing Logic:**",
             UIElem.code (pyStrOf (dictGetD o "existing_logic" (Json.str "N/A"))),
             UIElem.markdown "**Optimized Logic:**",
             UIElem.code (pyStrOf (dictGetD o "optimized_logic" (Json.str "N/A"))),
             UIElem.markdown "**Explanation:**",
             UIElem.caption ("> " ++ pyStrOf (dictGetD o "explanation" (Json.str "N/A")))], ?_⟩
    unfold screenStepElem
    rw [hl]
    rfl
  · cases hsv : dictGetD a "summary" (Json.obj []) with
    | obj s =>
      refine ⟨screenHeadElems a s ++ screenStepsElems 1 (objsOf l), ?_, ?_⟩
      · unfold screenRender
        rw [hsv, hgd]
        simp only [htru, Bool.true_eq_false, if_false, hsteps]
      · have hm := screenSteps_mem hks 1
        rw [Nat.add_comm] at hm
        simp [hm]
    | null => unfold summaryObjOk at hsum; rw [hsv] at hsum; simp at hsum
    | bool b => unfold summaryObjOk at hsum; rw [hsv] at hsum; simp at hsum
    | num n => unfold summaryObjOk at hsum; rw [hsv] at hsum; simp at hsum
    | str t => unfold summaryObjOk at hsum; rw [hsv] at hsum; simp at hsum
    | arr m => unfold summaryObjOk at hsum; rw [hsv] at hsum; simp at hsum
  · refine ⟨"\n### Step " ++ toString (k+1) ++ ": " ++
            pyStrOf (dictGetD o "type" (Json.str "N/A")) ++ " (Line: ",
            ")\n\n" ++ "**Existing Logic:**\n```sql\n" ++
            pyStrOf (dictGetD o "existing_logic" (Json.str "N/A")) ++ "\n```\n\n" ++
            "**Optimized Logic:**\n```sql\n" ++
            pyStrOf (dictGetD o "optimized_logic" (Json.str "N/A")) ++ "\n```\n\n" ++
            "**Explanation:**\n> " ++
            pyStrOf (dictGetD o "explanation" (Json.str "N/A")) ++ "\n\n---\n", ?_, rfl⟩
    unfold mdStepText
    rw [hl]
    simp only [pyStrOf, String.append_assoc]
  · cases hsv : dictGetD a "summary" (Json.obj []) with
    | obj s =>
      obtain ⟨x0, y0, hsplit⟩ := mdSteps_split hks 1
      rw [Nat.add_comm] at hsplit
      refine ⟨mdHeaderPart a s ++ mdStepsText 1 (objsOf l) ++
                ("\n## Summary Table:\n\n" ++ dfToMarkdown ((objsOf l).map mdRowOf)),
              mdHeaderPart a s ++ x0,
              y0 ++ ("\n## Summary Table:\n\n" ++ dfToMarkdown ((objsOf l).map mdRowOf)),
              ?_, ?_⟩
      · unfold markdownGen
        rw [hgd, hsv]
        simp only [hsteps, htru, Bool.true_eq_false, if_false, hrowsMd]
        rfl
      · rw [hsplit]
        simp [String.append_assoc]
    | null => unfold summaryObjOk at hsum; rw [hsv] at hsum; simp at hsum
    | bool b => unfold summaryObjOk at hsum; rw [hsv] at hsum; simp at hsum
    | num n => unfold summaryObjOk at hsum; rw [hsv] at hsum; simp at hsum
    | str t => unfold summaryObjOk at hsum; rw [hsv] at hsum; simp at hsum
    | arr m => unfold summaryObjOk at hsum; rw [hsv] at hsum; simp at hsum

/-- An optimization step without a `line_number` key. -/
def c7Step : Dict :=
  [("type", Json.str "Add Index"),
   ("existing_logic", Json.str "SELECT 1"),
   ("optimized_logic", Json.str "SELECT 2"),
   ("explanation", Json.str "Faster lookups")]

/-- A record containing `c7Step` used to exercise
`missing_line_number_renders_na`. -/
def c7Record : Dict :=
  [("procedure_name", Json.str "usp_X"),
   ("scope", Json.str "Maintains demo data."),
   ("optimizations", Json.arr [Json.obj c7Step]),
   ("summary", Json.obj [("original_performance_issues", Json.str "none"),
                         ("optimization_impact", Json.str "none"),
                         ("implementation_difficulty", Json.str "Low")])]

/-- Witness for C7 at a concrete record whose single step lacks
`line_number`. -/
theorem c7_witness :
    dictGet c7Record "optimizations" = some (Json.arr [Json.obj c7Step]) ∧
    ([Json.obj c7Step] : List Json).get? 0 = some (Json.obj c7Step) ∧
    ([Json.obj c7Step] : List Json).all Json.isObj = true ∧
    dictHasKey c7Step "line_number" = false ∧
    summaryObjOk c7Record = true ∧
    (wordRowOf c7Step).get? 1 = some "N/A" ∧
    (∃ c, screenStepElem (0+1) c7Step = UIElem.expander
      ("Step " ++ toString (0+1) ++ ": " ++ pyStrOf (dictGetD c7Step "type" (Json.str "N/A")) ++
       " (Line: " ++ "N/A" ++ ")") c) ∧
    (∃ u v, mdStepText (0+1) c7Step = u ++ "N/A" ++ v ∧
       u = "\n### Step " ++ toString (0+1) ++ ": " ++
           pyStrOf (dictGetD c7Step "type" (Json.str "N/A")) ++ " (Line: ") :=
  ⟨rfl, rfl, rfl, rfl, rfl,
   (missing_line_number_renders_na c7Record [Json.obj c7Step] 0 c7Step
      rfl rfl rfl rfl rfl).1.1,
   (missing_line_number_renders_na c7Record [Json.obj c7Step] 0 c7Step
      rfl rfl rfl rfl rfl).2.1.1,
   (missing_line_number_renders_na c7Record [Json.obj c7Step] 0 c7Step
      rfl rfl rfl rfl rfl).2.2.1⟩

/-- C8: for every record and every failure behaviour of the
word-processing library, `create_word_document` yields either a document
stream or the failure signal `none` (the exception handler admits no
other outcome), and the screen presentation and the Markdown text of the
results page are unchanged by the library's failure behaviour (a Word
failure does not cascade). -/
theorem word_failure_does_not_cascade (lib lib' : DocxLib) (a : Dict) (base : String) :
    (create_word_document lib a = none ∨ ∃ d, create_word_document lib a = some d) ∧
    (renderResultsPage lib a base).1 = (renderResultsPage lib' a base).1 ∧
    (renderResultsPage lib a base).2.markdownText = (renderResultsPage lib' a base).2.markdownText := by
  refine ⟨?_, rfl, ?_⟩
  · cases h : create_word_document lib a with
    | none => exact Or.inl rfl
    | some d => exact Or.inr ⟨d, rfl⟩
  · show (downloadSection lib a base).markdownText = (downloadSection lib' a base).markdownText
    unfold downloadSection
    cases h : markdownGen a with
    | ok s => rfl
    | error e => rfl

/-- C9: rendering is deterministic: the Word-document content and the
Markdown text produced by the download section depend only on the record
and the library behaviour, not on the session file-name base, and
repeated screen renders of the same record are identical; no timestamp
or other re-derived datum enters any presentation. -/
theorem render_deterministic (a : Dict) (lib : DocxLib) (b1 b2 : String) :
    (downloadSection lib a b1).docx = (downloadSection lib a b2).docx ∧
    (downloadSection lib a b1).markdownText = (downloadSection lib a b2).markdownText ∧
    screenRender a = screenRender a := by
  refine ⟨?_, ?_, rfl⟩ <;>
    unfold downloadSection <;>
    cases h : markdownGen a <;>
    rfl

/-- A session in which SQL was pasted: no sample loaded, no upload
processed. -/
def c10State : SessionState := ⟨false, false, none, "SELECT 1;"⟩

/-- A record whose extracted procedure name is `usp_X`. -/
def c10Record : Dict := [("procedure_name", Json.str "usp_X")]

/-- C10 counterexample: for pasted input the download files are named
`pasted_procedure_analysis.docx` / `pasted_procedure_analysis.md`; the
base is neither an uploaded file's base name (no upload was processed)
nor the extracted procedure name `usp_X`. -/
theorem c10_counterexample :
    determineFileName c10State = "pasted_procedure" ∧
    (downloadSection libOk c10Record (determineFileName c10State)).mdButtonName =
      some "pasted_procedure_analysis.md" ∧
    (downloadSection libOk c10Record (determineFileName c10State)).docxButtonName =
      some "pasted_procedure_analysis.docx" ∧
    pyStrOf (dictGetD c10Record "procedure_name" (Json.str "N/A")) = "usp_X" ∧
    "pasted_procedure" ≠ "usp_X" ∧
    c10State.processedUpload = false :=
  ⟨rfl, rfl, rfl, rfl, by decide, rfl⟩

/-- C10 amended: both download files are named from the session base
name with the `_analysis` suffix, where the base is the uploaded
file's stored base name when an upload was processed, and otherwise one
of the fixed fallback names `sample_procedure`, `pasted_procedure` or
`analysis_report`; the extracted procedure name is never consulted. -/
theorem download_names_from_session_base (st : SessionState) (lib : DocxLib) (a : Dict) :
    ((downloadSection lib a (determineFileName st)).docxButtonName = none ∨
     (downloadSection lib a (determineFileName st)).docxButtonName =
       some (determineFileName st ++ "_analysis.docx")) ∧
    ((downloadSection lib a (determineFileName st)).mdButtonName = none ∨
     (downloadSection lib a (determineFileName st)).mdButtonName =
       some (determineFileName st ++ "_analysis.md")) ∧
    (determineFileName st = "sample_procedure" ∨
     determineFileName st = "pasted_procedure" ∨
     determineFileName st = "analysis_report" ∨
     st.fileName = some (determineFileName st)) := by
  refine ⟨?_, ?_, ?_⟩
  · cases hm : markdownGen a <;> cases hw : create_word_document lib a <;>
      simp [downloadSection, hm, hw]
  · cases hm : markdownGen a <;> cases hw : create_word_document lib a <;>
      simp [downloadSection, hm, hw]
  · cases h1 : st.sampleLoaded with
    | true =>
      left
      unfold determineFileName
      rw [h1]
      rfl
    | false =>
      cases h2 : (st.processedUpload && pyTruthyStrOpt st.fileName) with
      | true =>
        right; right; right
        have hname : pyTruthyStrOpt st.fileName = true := (Bool.and_eq_true _ _ |>.mp h2).2
        cases hf : st.fileName with
        | none => rw [hf] at hname; simp [pyTruthyStrOpt] at hname
        | some s =>
          have : determineFileName st = s := by
            unfold determineFileName
            rw [h1, h2, hf]
            rfl
          rw [this]
      | false =>
        cases h3 : pyTruthyStr st.sqlInput with
        | true =>
          right; left
          unfold determineFileName
          rw [h1, h2, h3]
          rfl
        | false =>
          right; right; left
          unfold determineFileName
          rw [h1, h2, h3]
          rfl
